import Mathlib

/-!
Verification of the web-search orchestration engine of
`src/background/tools/web_search.ts`.

The development shallowly embeds the source file:

* JS string primitives (`indexOf`, `substring`, `endsWith`, `trim`,
  `encodeURI`, `encodeURIComponent`) are translated to functions on
  `String` viewed as `List Char`, with `Int` results where the source
  uses the `-1` sentinel.
* The site-adapter table `deepSearchInjects` and `buildDeepSearchUrl`
  are translated directly.
* The two event-driven phases (`doDetailLinkGroups`, `doPageContent`)
  become explicit state machines: tab-lifecycle events are an input
  list, the shared aggregate (`detailLinkGroups` / `searchInfo`) and
  the listener registry are explicit state, and the outcome of the
  environment-dependent steps (opening a tab, injecting a script,
  the one-shot message round trip) is given by an environment record.
  Each handler invocation is modelled as one atomic state transition:
  the engine runs on a cooperative scheduler, the listener removal in
  the "complete" branch precedes every suspension point, and every
  shared-state mutation is a single append or counter bump, so
  interleavings of distinct sessions commute on the observed state.
* `utils.MsgEvent` and `utils.CountDownLatch` are not part of the
  repository sources available here.  Modelled from the spec:
  publish delivers to every currently registered handler and handler
  failures are isolated (spec section 4.1); `await(timeout)` always
  returns normally, on countdown-to-zero or on timeout (spec
  section 4.2).  Consequently a phase function is total (it returns a
  value rather than an `Except`) unless the source contains an
  uncaught throw on the phase's own control path, which is the case
  only for `chrome.tabs.create` in `doPageContent`.
* `chrome.windows.create` (line 141) is a fallible environment step
  (`winCreate`): the source never guards it, so its rejection
  propagates to the caller; `chrome.windows.remove` carries no state.

Ghost logs (`termC`, `termU`, `cdLog`, `closeLog`, `succLog`,
`failLog`) record, per session index, the events the claims talk
about: entry into a terminal branch, `countDown()` calls, tab
closures, and counter bumps.  They are write-only instrumentation and
do not influence control flow.
-/

namespace WebSearchTS

/-! ## JS string primitives -/

/-- Result of searching for `pat` in `hay` starting at position `i`,
as the absolute index of the first match, or `-1` (JS `indexOf`). -/
def findSubFrom (hay pat : List Char) (i : Nat) : Int :=
  if pat.isPrefixOf hay then (i : Int)
  else
    match hay with
    | [] => -1
    | _ :: t => findSubFrom t pat (i + 1)

/-- JS `s.indexOf(pat)`. -/
def jsIndexOf (s pat : String) : Int :=
  findSubFrom s.data pat.data 0

/-- JS `s.indexOf(pat, start)` for a non-negative `start`. -/
def jsIndexOfFrom (s pat : String) (start : Nat) : Int :=
  match findSubFrom (s.data.drop start) pat.data 0 with
  | -1 => -1
  | i => i + (start : Int)

/-- JS `s.substring(0, e)` for `0 ≤ e`. -/
def jsSubstringTo (s : String) (e : Nat) : String :=
  ⟨s.data.take e⟩

/-- JS `s.substring(b)` for `0 ≤ b`. -/
def jsSubstringFrom (s : String) (b : Nat) : String :=
  ⟨s.data.drop b⟩

/-- JS `s.endsWith(t)`. -/
def jsEndsWith (s t : String) : Bool :=
  t.data.isSuffixOf s.data

/-- JS `s.trim()` (whitespace at both ends removed). -/
def jsTrim (s : String) : String :=
  ⟨(((s.data.dropWhile Char.isWhitespace).reverse.dropWhile
      Char.isWhitespace).reverse)⟩

/-- Upper-case hex digit for `0 ≤ n < 16`. -/
def hexDigit (n : Nat) : Char :=
  if n < 10 then Char.ofNat (48 + n) else Char.ofNat (55 + n)

/-- UTF-8 bytes of a character (as used by JS percent-encoding). -/
def utf8Bytes (c : Char) : List Nat :=
  let n := c.toNat
  if n < 128 then [n]
  else if n < 2048 then [192 + n / 64, 128 + n % 64]
  else if n < 65536 then
    [224 + n / 4096, 128 + n / 64 % 64, 128 + n % 64]
  else
    [240 + n / 262144, 128 + n / 4096 % 64, 128 + n / 64 % 64,
     128 + n % 64]

/-- Percent-encoding of one character (uppercase hex, per byte). -/
def pctEncodeChar (c : Char) : List Char :=
  (utf8Bytes c).flatMap fun b => ['%', hexDigit (b / 16), hexDigit (b % 16)]

/-- Characters `encodeURIComponent` leaves unescaped. -/
def uriComponentKeep (c : Char) : Bool :=
  c.isAlpha || c.isDigit ||
    c ∈ ['-', '_', '.', '!', '~', '*', Char.ofNat 39, '(', ')']

/-- Characters `encodeURI` leaves unescaped (component set plus URI
reserved characters and the hash). -/
def uriKeep (c : Char) : Bool :=
  uriComponentKeep c ||
    c ∈ [';', ',', '/', '?', ':', '@', '&', '=', '+', '$', '#']

/-- JS `encodeURIComponent`. -/
def encodeURIComponent (s : String) : String :=
  ⟨s.data.flatMap fun c => if uriComponentKeep c then [c] else pctEncodeChar c⟩

/-- JS `encodeURI`. -/
def encodeURI (s : String) : String :=
  ⟨s.data.flatMap fun c => if uriKeep c then [c] else pctEncodeChar c⟩

/-! ## Site adapters (`deepSearchInjects`, lines 55-92) -/

/-- One entry of the `deepSearchInjects` table: an extraction-script
file name and a search-URL builder. -/
structure Inject where
  filename : String
  buildSearchUrl : String → String → String

/-- The `bing.com` adapter. -/
def bingInject : Inject where
  filename := "bing.js"
  buildSearchUrl := fun _ keyword =>
    "https://bing.com/search?q=" ++ encodeURI keyword

/-- The `duckduckgo.com` adapter. -/
def duckduckgoInject : Inject where
  filename := "duckduckgo.js"
  buildSearchUrl := fun _ keyword =>
    "https://duckduckgo.com/?q=" ++ encodeURI keyword

/-- The `google.com` adapter. -/
def googleInject : Inject where
  filename := "google.js"
  buildSearchUrl := fun _ keyword =>
    "https://www.google.com/search?q=" ++ encodeURI keyword

/-- The `default` adapter: scope a Google query with `site:host`. -/
def defaultInject : Inject where
  filename := "google.js"
  buildSearchUrl := fun url keyword =>
    let url := jsTrim url
    let idx := jsIndexOf url ("//")
    let url := if idx > -1 then jsSubstringFrom url (idx + 2).toNat else url
    let idx2 := jsIndexOfFrom url ("/") 2
    let url := if idx2 > -1 then jsSubstringTo url idx2.toNat else url
    let keyword := "site:" ++ url ++ " " ++ keyword
    "https://www.google.com/search?q=" ++ encodeURIComponent keyword

/-- The ordered `deepSearchInjects` table, in `Object.keys` insertion
order (the `default` key is part of the walked table, exactly as in
the source). -/
def deepSearchInjects : List (String × Inject) :=
  [("bing.com", bingInject),
   ("duckduckgo.com", duckduckgoInject),
   ("google.com", googleInject),
   ("default", defaultInject)]

/-- Host-candidate match of `buildDeepSearchUrl`'s loop body. -/
def domainMatches (baseUrl domain : String) : Bool :=
  baseUrl == domain || jsEndsWith baseUrl ("." ++ domain) ||
    jsEndsWith baseUrl ("/" ++ domain)

/-- Adapter resolution (lines 94-112): the URL up to the first path
slash is matched against the table in order; no match falls back to
the default adapter.  Returns the matched key with the adapter. -/
def resolveInject (url : String) : String × Inject :=
  let idx := jsIndexOfFrom url ("/") (jsIndexOf url ("//") + 2).toNat
  let baseUrl := if idx > -1 then jsSubstringTo url idx.toNat else url
  match deepSearchInjects.find? (fun p => domainMatches baseUrl p.1) with
  | some p => p
  | none => ("default", defaultInject)

/-- `buildDeepSearchUrl` (lines 94-117): script file name and built
search URL for a search request. -/
def buildDeepSearchUrl (url keyword : String) : String × String :=
  let inject := (resolveInject url).2
  (inject.filename, inject.buildSearchUrl url keyword)

/-- Substring containment, at the level of the character list. -/
def strContainsP (s t : String) : Prop :=
  ∃ a b : List Char, s.data = a ++ (t.data ++ b)

/-! ## Data model -/

/-- One search request: `searchs` entry `[ url, keyword ]`. -/
structure Search where
  url : String
  keyword : String
deriving Repr, DecidableEq

/-- A candidate detail link `[ title, url ]`; `content` and
`page_title` are written during content extraction (`none` models an
absent JS property). -/
structure DetailLink where
  title : String
  url : String
  content : Option String := none
  page_title : Option String := none
deriving Repr, DecidableEq

/-- One discovery result group `[ url, links, filename ]`. -/
structure LinkGroup where
  url : String
  links : List DetailLink
  filename : String
deriving Repr, DecidableEq

/-- The aggregate `searchInfo` object of `doPageContent`. -/
structure SearchInfo where
  total : Nat
  running : Int
  succeed : Nat
  failed : Nat
  failedLinks : List DetailLink
  result : List LinkGroup
deriving Repr, DecidableEq

/-- A published tab-lifecycle event: `[ tabId, changeInfo.status ]`. -/
structure TabEvent where
  tabId : Nat
  status : String
deriving Repr, DecidableEq

/-! ## Phase 1: link discovery (`doDetailLinkGroups`, lines 173-232) -/

/-- Combined outcome of the discovery handler's environment steps
(`injectScript`, `sendMessage`, response shape). -/
inductive LinksOutcome where
  /-- `injectScript` or `sendMessage` rejected: the handler dies
  after its initial `removeListener`. -/
  | errored : LinksOutcome
  /-- `sendMessage` resolved with a falsy response. -/
  | noResponse : LinksOutcome
  /-- response object present but its `links` property is falsy. -/
  | noLinksField : LinksOutcome
  /-- response with a `links` array. -/
  | gotLinks (links : List DetailLink) : LinksOutcome
deriving Repr, DecidableEq

/-- Environment of one discovery phase: per search index, the result
of `chrome.tabs.create` and the handler outcome. -/
structure P1Env where
  tabCreate : Nat → Except String Nat
  outcome : Nat → LinksOutcome

/-- One registered discovery tab session (tab id, built search URL,
script file name, handler outcome). -/
structure P1Session where
  tabId : Nat
  searchUrl : String
  filename : String
  outcome : LinksOutcome
deriving Repr, DecidableEq

/-- Discovery phase state: the listener registry (registered session
indices), the shared `detailLinkGroups`, and ghost logs per session
index (countdowns, tab closures, complete-branch and unloaded-branch
entries); `setupCd` counts `countDown()` calls from the setup
`catch`. -/
structure P1State where
  subs : List Nat
  groups : List LinkGroup
  cdLog : List Nat
  closeLog : List Nat
  termC : List Nat
  termU : List Nat
  setupCd : Nat
deriving Repr, DecidableEq

/-- Sessions created by the setup loop: index `i` holds `none` when
`chrome.tabs.create` rejected (handled by the loop's `catch`). -/
def p1Sessions (searchs : List Search) (env : P1Env) : List (Option P1Session) :=
  (List.range searchs.length).map fun i =>
    match searchs[i]? with
    | none => none
    | some sr =>
      let fu := buildDeepSearchUrl sr.url sr.keyword
      match env.tabCreate i with
      | .error _ => none
      | .ok tid => some ⟨tid, fu.2, fu.1, env.outcome i⟩

/-- Initial discovery state after the setup loop: successfully
created sessions are subscribed; a failed `chrome.tabs.create` is
caught and counted down immediately. -/
def p1Init (searchs : List Search) (env : P1Env) : P1State :=
  let ss := p1Sessions searchs env
  { subs := (List.range ss.length).filter fun i => (ss[i]?.join).isSome
    groups := []
    cdLog := []
    closeLog := []
    termC := []
    termU := []
    setupCd := ((List.range ss.length).filter fun i => (ss[i]?.join).isNone).length }

/-- One delivery of one event to the handler of session `i` (lines
195-224), run only when the bus still has the subscription.  In the
`complete` branch the listener is removed first (line 200); an
`errored` outcome kills the handler there, before the group append,
the countdown and the tab close.  The `unloaded` branch counts down,
closes the tab and unsubscribes.  Any other status is ignored. -/
def p1Handle (detailsMaxNum : Nat) (i : Nat) (s : P1Session) (e : TabEvent)
    (σ : P1State) : P1State :=
  if i ∈ σ.subs then
    if e.tabId = s.tabId then
      if e.status = "complete" then
        let σ1 := { σ with subs := σ.subs.erase i, termC := σ.termC ++ [i] }
        match s.outcome with
        | .errored => σ1
        | .noResponse =>
          { σ1 with
            groups := σ1.groups ++ [⟨s.searchUrl, List.take detailsMaxNum [], s.filename⟩]
            cdLog := σ1.cdLog ++ [i], closeLog := σ1.closeLog ++ [i] }
        | .noLinksField =>
          { σ1 with
            groups := σ1.groups ++ [⟨s.searchUrl, List.take detailsMaxNum [], s.filename⟩]
            cdLog := σ1.cdLog ++ [i], closeLog := σ1.closeLog ++ [i] }
        | .gotLinks ls =>
          { σ1 with
            groups := σ1.groups ++ [⟨s.searchUrl, ls.take detailsMaxNum, s.filename⟩]
            cdLog := σ1.cdLog ++ [i], closeLog := σ1.closeLog ++ [i] }
      else if e.status = "unloaded" then
        { σ with
          cdLog := σ.cdLog ++ [i], closeLog := σ.closeLog ++ [i]
          subs := σ.subs.erase i, termU := σ.termU ++ [i] }
      else σ
    else σ
  else σ

/-- Publish one event: deliver to every registered handler in
registration order (the bus delivers to all; each handler filters by
tab id). -/
def p1Deliver (detailsMaxNum : Nat) (sessions : List (Option P1Session))
    (σ : P1State) (e : TabEvent) : P1State :=
  (List.range sessions.length).foldl
    (fun σ i =>
      match sessions[i]? with
      | some (some s) => p1Handle detailsMaxNum i s e σ
      | _ => σ)
    σ

/-- Run the discovery phase over a published event list; the barrier
`await(30_000)` then returns unconditionally. -/
def runDetailPhase (searchs : List Search) (detailsMaxNum : Nat) (env : P1Env)
    (events : List TabEvent) : P1State :=
  events.foldl (p1Deliver detailsMaxNum (p1Sessions searchs env))
    (p1Init searchs env)

/-- `doDetailLinkGroups`: the accumulated link groups when the phase
returns (the `taskId` argument only feeds event ids and is dropped by
the embedding). -/
def doDetailLinkGroups (searchs : List Search) (detailsMaxNum : Nat)
    (env : P1Env) (events : List TabEvent) : List LinkGroup :=
  (runDetailPhase searchs detailsMaxNum env events).groups

/-! ## Phase 2: content extraction (`doPageContent`, lines 242-315) -/

/-- Combined outcome of the extraction handler's environment steps. -/
inductive P2Outcome where
  /-- `injectScript` or `sendMessage` rejected (caught by the
  handler's `catch`). -/
  | errored : P2Outcome
  /-- falsy response: the handler throws `No Result` into its own
  `catch`. -/
  | noResult : P2Outcome
  /-- response `[ title, content ]`. -/
  | gotContent (title content : Option String) : P2Outcome
deriving Repr, DecidableEq

/-- Environment of one extraction phase, indexed by the flat link
index in group-then-link order. -/
structure P2Env where
  tabCreate : Nat → Except String Nat
  outcome : Nat → P2Outcome

/-- One registered extraction tab session: tab id, owning group and
link positions, the captured `link`, and the handler outcome. -/
structure P2Session where
  tabId : Nat
  gi : Nat
  lj : Nat
  link : DetailLink
  outcome : P2Outcome
deriving Repr, DecidableEq

/-- Extraction phase state: the `searchInfo` aggregate, the listener
registry, and ghost logs per session index. -/
structure P2State where
  info : SearchInfo
  subs : List Nat
  succLog : List Nat
  failLog : List Nat
  termLog : List Nat
  cdLog : List Nat
  closeLog : List Nat
deriving Repr, DecidableEq

/-- The flattened worklist: `(group index, link index, link,
filename)` in the nested-loop order of the source. -/
def p2Pairs (groups : List LinkGroup) : List (Nat × Nat × DetailLink) :=
  groups.enum.flatMap fun gi =>
    gi.2.links.enum.map fun lj => (gi.1, lj.1, lj.2)

/-- The setup loop of `doPageContent`: open one tab per link, in
order.  `chrome.tabs.create` is not guarded here (unlike phase 1), so
its rejection propagates and aborts the whole phase. -/
def p2SetupGo (env : P2Env) (pairs : List (Nat × Nat × DetailLink)) (k : Nat) :
    Except String (List P2Session) :=
  match pairs with
  | [] => .ok []
  | p :: rest =>
    match env.tabCreate k with
    | .error e => .error e
    | .ok tid =>
      match p2SetupGo env rest (k + 1) with
      | .error e => .error e
      | .ok tail => .ok (⟨tid, p.1, p.2.1, p.2.2, env.outcome k⟩ :: tail)

/-- Update `result` in place at group `gi`, link `lj`, writing the
extracted `content` and `page_title`. -/
def updateLink (result : List LinkGroup) (gi lj : Nat) (t c : Option String) :
    List LinkGroup :=
  match result[gi]? with
  | none => result
  | some g =>
    match g.links[lj]? with
    | none => result
    | some l =>
      result.set gi { g with links := g.links.set lj { l with content := c, page_title := t } }

/-- One delivery of one event to the handler of extraction session
`k` (lines 273-310).  The `complete` branch is a
`try`/`catch`/`finally`: the listener is removed on entry; a
successful response writes the link in place and bumps `succeed`; any
failure bumps `failed` and appends the link to `failedLinks`; the
`finally` always decrements `running`, counts down, closes the tab
and unsubscribes again.  The `unloaded` branch does the cleanup
only. -/
def p2Handle (k : Nat) (s : P2Session) (e : TabEvent) (σ : P2State) : P2State :=
  if k ∈ σ.subs then
    if e.tabId = s.tabId then
      if e.status = "complete" then
        let σ1 := { σ with subs := σ.subs.erase k }
        let σ2 :=
          match s.outcome with
          | .gotContent t c =>
            { σ1 with
              info := { σ1.info with
                result := updateLink σ1.info.result s.gi s.lj t c
                succeed := σ1.info.succeed + 1 }
              succLog := σ1.succLog ++ [k] }
          | _ =>
            { σ1 with
              info := { σ1.info with
                failed := σ1.info.failed + 1
                failedLinks := σ1.info.failedLinks ++ [s.link] }
              failLog := σ1.failLog ++ [k] }
        { σ2 with
          info := { σ2.info with running := σ2.info.running - 1 }
          termLog := σ2.termLog ++ [k]
          cdLog := σ2.cdLog ++ [k], closeLog := σ2.closeLog ++ [k]
          subs := σ2.subs.erase k }
      else if e.status = "unloaded" then
        { σ with
          info := { σ.info with running := σ.info.running - 1 }
          termLog := σ.termLog ++ [k]
          cdLog := σ.cdLog ++ [k], closeLog := σ.closeLog ++ [k]
          subs := σ.subs.erase k }
      else σ
    else σ
  else σ

/-- Publish one event to every registered extraction handler. -/
def p2Deliver (sessions : List P2Session) (σ : P2State) (e : TabEvent) : P2State :=
  (List.range sessions.length).foldl
    (fun σ k =>
      match sessions[k]? with
      | some s => p2Handle k s e σ
      | none => σ)
    σ

/-- Initial extraction state once all tabs opened: `total` is the
worklist length, every session incremented `running`, all sessions
subscribed. -/
def p2Init (groups : List LinkGroup) (n : Nat) : P2State :=
  { info :=
      { total := n, running := (n : Int), succeed := 0, failed := 0
        failedLinks := [], result := groups }
    subs := List.range n
    succLog := [], failLog := [], termLog := [], cdLog := [], closeLog := [] }

/-- Run the extraction phase: the unguarded setup loop, then event
delivery, then the barrier's `await(60_000)` returns. -/
def runContentPhase (groups : List LinkGroup) (env : P2Env)
    (events : List TabEvent) : Except String P2State :=
  match p2SetupGo env (p2Pairs groups) 0 with
  | .error e => .error e
  | .ok sessions =>
    .ok (events.foldl (p2Deliver sessions) (p2Init groups (p2Pairs groups).length))

/-- `doPageContent`: the final `searchInfo`, or the propagated
tab-open rejection. -/
def doPageContent (groups : List LinkGroup) (env : P2Env)
    (events : List TabEvent) : Except String SearchInfo :=
  match runContentPhase groups env events with
  | .error e => .error e
  | .ok σ => .ok σ.info

/-! ## `deepSearch` and `WebSearch.execute` (lines 37-52, 132-162) -/

/-- `deepSearch` (lines 132-162): when the caller supplies no work
window, the unguarded `await chrome.windows.create` of line 141 runs
first and its rejection propagates to the caller (`winCreate` is that
call's result); then discovery, then extraction; the window removal
of line 160 carries no further state. -/
def deepSearch (searchs : List Search) (detailsMaxNum : Nat)
    (window : Option Nat) (winCreate : Except String Nat)
    (env1 : P1Env) (ev1 : List TabEvent) (env2 : P2Env) (ev2 : List TabEvent) :
    Except String SearchInfo :=
  match window with
  | some _ =>
    doPageContent (doDetailLinkGroups searchs detailsMaxNum env1 ev1) env2 ev2
  | none =>
    match winCreate with
    | .error e => .error e
    | .ok _ =>
      doPageContent (doDetailLinkGroups searchs detailsMaxNum env1 ev1) env2 ev2

/-- The `params` value handed to `WebSearch.execute`: a non-object, a
null, or an object whose `query` / `url` / `maxResults` properties
are present or absent. -/
inductive ExecInput where
  | notObject : ExecInput
  | nullInput : ExecInput
  | object (query : Option String) (url : Option String)
      (maxResults : Option Nat) : ExecInput
deriving Repr, DecidableEq

/-- The validation of lines 38-42: `params` must be a non-null object
with a `query` property. -/
def validInput : ExecInput → Bool
  | .object (some _) _ _ => true
  | _ => false

/-- Errors surfaced by `execute`: its own invalid-parameters error,
or an error propagated from the environment. -/
inductive JsErr where
  | invalidParams : JsErr
  | external (msg : String) : JsErr
deriving Repr, DecidableEq

/-- Line 44-46: a falsy `url` (absent or empty) is replaced by the
default. -/
def effectiveUrl : Option String → String
  | none => "https://google.com"
  | some u => if u = "" then "https://google.com" else u

/-- Line 49: `maxResults || 5` — a falsy `maxResults` (absent or `0`)
is replaced by `5`. -/
def effectiveMaxResults : Option Nat → Nat
  | none => 5
  | some n => if n = 0 then 5 else n

/-- Lines 50-51: the first group's links (or `[]`), filtered to links
with truthy `content`. -/
def truthyContent : Option String → Bool
  | none => false
  | some s => !s.isEmpty

/-- The response built from the final `searchInfo`
(`searchInfo.result[0]?.links || []` filtered on `content`). -/
def respond (info : SearchInfo) : List DetailLink :=
  (match info.result.head? with
   | some g => g.links
   | none => []).filter fun l => truthyContent l.content

/-- The response as the spec's section 6 words it: the links of the
first LinkGroup that have non-empty content, in stored order; the
empty sequence when no LinkGroup was produced. -/
def respondSpec (info : SearchInfo) : List DetailLink :=
  match info.result with
  | [] => []
  | g :: _ => g.links.filter fun l => truthyContent l.content

/-- `WebSearch.execute` (lines 37-52): validate, default the url and
maxResults, run `deepSearch` on the single search — with no window
supplied, so line 141's `chrome.windows.create` (result `winCreate`)
always runs — and shape the response. -/
def execute (input : ExecInput) (winCreate : Except String Nat)
    (env1 : P1Env) (ev1 : List TabEvent) (env2 : P2Env) (ev2 : List TabEvent) :
    Except JsErr (List DetailLink) :=
  match input with
  | .object (some query) url maxResults =>
    match deepSearch [⟨effectiveUrl url, query⟩] (effectiveMaxResults maxResults)
        none winCreate env1 ev1 env2 ev2 with
    | .ok info => .ok (respond info)
    | .error e => .error (.external e)
  | _ => .error .invalidParams

/-! ## Invariant statements -/

/-- Invariant of the extraction state machine, for `n` sessions:
listener ids are unique; a still-subscribed session has never fired a
terminal branch; no session fires a terminal branch twice; counter
bumps per session are bounded by its terminal entries; countdowns and
tab closures coincide with terminal entries; the counters mirror the
ghost logs; and the number of subscriptions plus terminal entries
never exceeds `n`. -/
structure P2Inv (n : Nat) (σ : P2State) : Prop where
  nodup : σ.subs.Nodup
  fresh : ∀ k, k ∈ σ.subs → σ.termLog.count k = 0
  once : ∀ k, σ.termLog.count k ≤ 1
  splitCnt : ∀ k, σ.succLog.count k + σ.failLog.count k ≤ σ.termLog.count k
  cdEq : ∀ k, σ.cdLog.count k = σ.termLog.count k
  closeEq : ∀ k, σ.closeLog.count k = σ.termLog.count k
  succeedEq : σ.info.succeed = σ.succLog.length
  failedEq : σ.info.failed = σ.failLog.length
  failedLinksEq : σ.info.failedLinks.length = σ.failLog.length
  totalEq : σ.info.total = n
  lenSum : σ.subs.length + σ.termLog.length ≤ n
  succFailLen : σ.succLog.length + σ.failLog.length ≤ σ.termLog.length

/-- Invariant of the discovery state machine: listener ids unique; a
subscribed session has fired no terminal branch; no session fires a
terminal branch twice; countdowns and closures coincide; closures per
session match the terminal entries, except that a `complete`-branch
entry whose handler errored produced neither. -/
structure P1Inv (env : P1Env) (σ : P1State) : Prop where
  nodup : σ.subs.Nodup
  fresh : ∀ k, k ∈ σ.subs → σ.termC.count k + σ.termU.count k = 0
  once : ∀ k, σ.termC.count k + σ.termU.count k ≤ 1
  cdClose : ∀ k, σ.cdLog.count k = σ.closeLog.count k
  closeEq : ∀ k, σ.closeLog.count k =
    σ.termU.count k + (if env.outcome k = .errored then 0 else σ.termC.count k)

/-! ## Setup-success predicate -/

/-- Whether the `m` sequential `chrome.tabs.create` calls starting at
flat index `k` all succeed. -/
def createsOkFrom (env : P2Env) (k m : Nat) : Bool :=
  match m with
  | 0 => true
  | m + 1 => (env.tabCreate k).isOk && createsOkFrom env (k + 1) m

/-! ## Concrete instances for counterexamples, scenarios and witnesses -/

/-! Concrete instances used by counterexamples, scenarios and witnesses. -/

def cexSearchs : List Search := [⟨"https://google.com", "ai"⟩]

def cexEnv1 : P1Env := ⟨fun _ => .ok 7, fun _ => .errored⟩

def cexState : P1State := runDetailPhase cexSearchs 5 cexEnv1 [⟨7, "complete"⟩]

def c2Link : DetailLink := ⟨"t0", "http://x", none, none⟩

def c2Env1 : P1Env := ⟨fun _ => .ok 7, fun _ => .gotLinks [c2Link]⟩

def c2Env2 : P2Env := ⟨fun _ => .error "tab create failed", fun _ => .noResult⟩

def c3Env1 : P1Env := ⟨fun _ => .ok 9, fun _ => .gotLinks [⟨"a", "http://a", none, none⟩]⟩

def c3Env2 : P2Env := ⟨fun _ => .error "no such window", fun _ => .errored⟩

def c5Groups : List LinkGroup := [⟨"gu", [⟨"w", "http://w", none, none⟩], "google.js"⟩]

def c5Env2 : P2Env := ⟨fun _ => .ok 42, fun _ => .gotContent (some "T") (some "body")⟩

def c5State : P2State :=
  match runContentPhase c5Groups c5Env2 [⟨42, "complete"⟩] with
  | .ok σ => σ
  | .error _ => p2Init c5Groups 0

def c6Session : P1Session := ⟨3, "surl", "google.js", .noResponse⟩

def c6State : P1State :=
  { subs := [0], groups := [], cdLog := [], closeLog := [], termC := [], termU := [], setupCd := 0 }

def c7Session : P2Session :=
  ⟨8, 0, 0, ⟨"w", "http://w", none, none⟩, .gotContent (some "T") (some "B")⟩

def c7State : P2State :=
  { info := ⟨1, 1, 0, 0, [], [⟨"gu", [⟨"w", "http://w", none, none⟩], "google.js"⟩]⟩
    subs := [0], succLog := [], failLog := [], termLog := [], cdLog := [], closeLog := [] }

def scenLink (i : Nat) : DetailLink := ⟨"t" ++ toString i, "http://l" ++ toString i, none, none⟩

def scenGroups : List LinkGroup :=
  [⟨"su", [scenLink 0, scenLink 1, scenLink 2, scenLink 3, scenLink 4], "google.js"⟩]

def scenEnv2 : P2Env :=
  ⟨fun k => .ok (100 + k),
   fun k => if k = 2 then .noResult else .gotContent (some "T") (some "C")⟩

def scenEvents : List TabEvent :=
  [⟨100, "complete"⟩, ⟨101, "complete"⟩, ⟨102, "complete"⟩,
   ⟨103, "complete"⟩, ⟨104, "complete"⟩]

def scenInfo : SearchInfo :=
  match doPageContent scenGroups scenEnv2 scenEvents with
  | .ok info => info
  | .error _ => (p2Init [] 0).info

def c8TenLinks : List DetailLink := List.replicate 10 ⟨"t", "u", none, none⟩

def c8Env1 : P1Env := ⟨fun _ => .ok 7, fun _ => .gotLinks c8TenLinks⟩

def c8Searchs : List Search := [⟨"https://bing.com", "ai"⟩]

/-! ## Theorems -/

theorem encodeURIComponent_append (a b : String) :
    encodeURIComponent (a ++ b) = encodeURIComponent a ++ encodeURIComponent b := by
  apply String.ext
  simp only [encodeURIComponent, String.data_append, List.flatMap_append]

/-! ## Generic helpers -/

theorem foldl_preserve {α β : Type _} (P : α → Prop) (f : α → β → α) :
    ∀ (l : List β) (a : α), (∀ a b, P a → P (f a b)) → P a → P (l.foldl f a) := by
  intro l
  induction l with
  | nil => intro a _ ha; exact ha
  | cons x xs ih => intro a hf ha; exact ih _ hf (hf _ _ ha)

theorem count_snoc (l : List Nat) (i j : Nat) :
    (l ++ [i]).count j = l.count j + if i = j then 1 else 0 := by
  rw [List.count_append, List.count_singleton']

theorem erase_twice (l : List Nat) (hnd : l.Nodup) (k : Nat) :
    (l.erase k).erase k = l.erase k := by
  apply List.erase_of_not_mem
  intro h
  exact absurd ((hnd.mem_erase_iff).mp h).1 (by simp)

theorem p2Init_inv (groups : List LinkGroup) (n : Nat) : P2Inv n (p2Init groups n) := by
  constructor <;> simp [p2Init, List.nodup_range]

theorem p2Handle_inv {n : Nat} (k : Nat) (s : P2Session) (e : TabEvent)
    {σ : P2State} (h : P2Inv n σ) : P2Inv n (p2Handle k s e σ) := by
  by_cases hk : k ∈ σ.subs
  case neg => simp only [p2Handle, if_neg hk]; exact h
  by_cases ht : e.tabId = s.tabId
  case neg => simp only [p2Handle, if_pos hk, if_neg ht]; exact h
  have hlen : 0 < σ.subs.length := List.length_pos_of_mem hk
  have herase : (σ.subs.erase k).length = σ.subs.length - 1 :=
    List.length_erase_of_mem hk
  have hfreshk : σ.termLog.count k = 0 := h.fresh k hk
  by_cases hc : e.status = "complete"
  case pos =>
    obtain ⟨tid, gi, lj, link, out⟩ := s
    cases out with
    | gotContent t c =>
      simp only [p2Handle, if_pos hk, if_pos ht, if_pos hc]
      refine ⟨?_, ?_, ?_, ?_, ?_, ?_, ?_, ?_, ?_, ?_, ?_, ?_⟩ <;>
        simp only [erase_twice _ h.nodup, count_snoc, List.length_append,
          List.length_singleton]
      · exact h.nodup.erase k
      · intro j hj
        have hj' := (h.nodup.mem_erase_iff).mp hj
        rw [h.fresh j hj'.2, if_neg (fun hkj => hj'.1 hkj.symm)]
      · intro j
        by_cases hkj : k = j
        · subst hkj; rw [hfreshk]; simp
        · rw [if_neg hkj]; exact h.once j
      · intro j
        have := h.splitCnt j
        by_cases hkj : k = j <;> simp [hkj] <;> omega
      · intro j; rw [h.cdEq j]
      · intro j; rw [h.closeEq j]
      · exact congrArg (· + 1) h.succeedEq
      · exact h.failedEq
      · exact h.failedLinksEq
      · exact h.totalEq
      · have := h.lenSum; rw [herase]; omega
      · have := h.succFailLen; omega
    | errored =>
      simp only [p2Handle, if_pos hk, if_pos ht, if_pos hc]
      refine ⟨?_, ?_, ?_, ?_, ?_, ?_, ?_, ?_, ?_, ?_, ?_, ?_⟩ <;>
        simp only [erase_twice _ h.nodup, count_snoc, List.length_append,
          List.length_singleton]
      · exact h.nodup.erase k
      · intro j hj
        have hj' := (h.nodup.mem_erase_iff).mp hj
        rw [h.fresh j hj'.2, if_neg (fun hkj => hj'.1 hkj.symm)]
      · intro j
        by_cases hkj : k = j
        · subst hkj; rw [hfreshk]; simp
        · rw [if_neg hkj]; exact h.once j
      · intro j
        have := h.splitCnt j
        by_cases hkj : k = j <;> simp [hkj] <;> omega
      · intro j; rw [h.cdEq j]
      · intro j; rw [h.closeEq j]
      · exact h.succeedEq
      · exact congrArg (· + 1) h.failedEq
      · rw [h.failedLinksEq]
      · exact h.totalEq
      · have := h.lenSum; rw [herase]; omega
      · have := h.succFailLen; omega
    | noResult =>
      simp only [p2Handle, if_pos hk, if_pos ht, if_pos hc]
      refine ⟨?_, ?_, ?_, ?_, ?_, ?_, ?_, ?_, ?_, ?_, ?_, ?_⟩ <;>
        simp only [erase_twice _ h.nodup, count_snoc, List.length_append,
          List.length_singleton]
      · exact h.nodup.erase k
      · intro j hj
        have hj' := (h.nodup.mem_erase_iff).mp hj
        rw [h.fresh j hj'.2, if_neg (fun hkj => hj'.1 hkj.symm)]
      · intro j
        by_cases hkj : k = j
        · subst hkj; rw [hfreshk]; simp
        · rw [if_neg hkj]; exact h.once j
      · intro j
        have := h.splitCnt j
        by_cases hkj : k = j <;> simp [hkj] <;> omega
      · intro j; rw [h.cdEq j]
      · intro j; rw [h.closeEq j]
      · exact h.succeedEq
      · exact congrArg (· + 1) h.failedEq
      · rw [h.failedLinksEq]
      · exact h.totalEq
      · have := h.lenSum; rw [herase]; omega
      · have := h.succFailLen; omega
  case neg =>
    by_cases hu : e.status = "unloaded"
    case neg =>
      simp only [p2Handle, if_pos hk, if_pos ht, if_neg hc, if_neg hu]; exact h
    simp only [p2Handle, if_pos hk, if_pos ht, if_neg hc, if_pos hu]
    refine ⟨?_, ?_, ?_, ?_, ?_, ?_, ?_, ?_, ?_, ?_, ?_, ?_⟩ <;>
      simp only [count_snoc, List.length_append, List.length_singleton]
    · exact h.nodup.erase k
    · intro j hj
      have hj' := (h.nodup.mem_erase_iff).mp hj
      rw [h.fresh j hj'.2, if_neg (fun hkj => hj'.1 hkj.symm)]
    · intro j
      by_cases hkj : k = j
      · subst hkj; rw [hfreshk]; simp
      · rw [if_neg hkj]; exact h.once j
    · intro j
      have := h.splitCnt j
      by_cases hkj : k = j <;> simp [hkj] <;> omega
    · intro j; rw [h.cdEq j]
    · intro j; rw [h.closeEq j]
    · exact h.succeedEq
    · exact h.failedEq
    · exact h.failedLinksEq
    · exact h.totalEq
    · have := h.lenSum; rw [herase]; omega
    · have := h.succFailLen; omega

theorem p2Deliver_inv {n : Nat} (sessions : List P2Session) (e : TabEvent)
    {σ : P2State} (h : P2Inv n σ) : P2Inv n (p2Deliver sessions σ e) := by
  unfold p2Deliver
  apply foldl_preserve (P2Inv n)
  · intro a k ha
    cases hsk : sessions[k]? with
    | some s => exact p2Handle_inv k s e ha
    | none => exact ha
  · exact h

theorem runContentPhase_inv (groups : List LinkGroup) (env : P2Env)
    (events : List TabEvent) {σ : P2State}
    (h : runContentPhase groups env events = .ok σ) :
    P2Inv (p2Pairs groups).length σ := by
  unfold runContentPhase at h
  cases hs : p2SetupGo env (p2Pairs groups) 0 with
  | error e => rw [hs] at h; cases h
  | ok sessions =>
    rw [hs] at h
    cases h
    apply foldl_preserve (P2Inv (p2Pairs groups).length)
    · intro a b ha
      exact p2Deliver_inv sessions b ha
    · exact p2Init_inv groups _

/-- A session built by the discovery setup loop carries the
environment's outcome for its own index. -/
theorem p1Sessions_outcome {searchs : List Search} {env : P1Env} {i : Nat}
    {s : P1Session} (h : (p1Sessions searchs env)[i]? = some (some s)) :
    s.outcome = env.outcome i := by
  unfold p1Sessions at h
  rw [List.getElem?_map] at h
  by_cases hin : i < searchs.length
  case neg =>
    rw [List.getElem?_eq_none (by simpa using Nat.le_of_not_lt hin)] at h
    cases h
  rw [List.getElem?_range (by simpa using hin)] at h
  simp only [Option.map_some'] at h
  cases hq : searchs[i]? with
  | none => rw [hq] at h; cases h
  | some sr =>
    rw [hq] at h
    cases hc : env.tabCreate i with
    | error e => rw [hc] at h; cases h
    | ok tid =>
      rw [hc] at h
      cases h
      rfl

theorem p1Init_inv (searchs : List Search) (env : P1Env) :
    P1Inv env (p1Init searchs env) := by
  constructor <;> simp [p1Init, List.Nodup.filter _ (List.nodup_range _)]

theorem p1Handle_inv {env : P1Env} (maxNum i : Nat) (s : P1Session) (e : TabEvent)
    {σ : P1State} (hout : s.outcome = env.outcome i) (h : P1Inv env σ) :
    P1Inv env (p1Handle maxNum i s e σ) := by
  by_cases hk : i ∈ σ.subs
  case neg => simp only [p1Handle, if_neg hk]; exact h
  by_cases ht : e.tabId = s.tabId
  case neg => simp only [p1Handle, if_pos hk, if_neg ht]; exact h
  have hfreshk := h.fresh i hk
  by_cases hc : e.status = "complete"
  case pos =>
    obtain ⟨tid, surl, fn, out⟩ := s
    simp only at hout
    cases out with
    | errored =>
      simp only [p1Handle, if_pos hk, if_pos ht, if_pos hc]
      refine ⟨h.nodup.erase i, ?_, ?_, h.cdClose, ?_⟩ <;> simp only [count_snoc]
      · intro j hj
        have hj' := (h.nodup.mem_erase_iff).mp hj
        have := h.fresh j hj'.2
        rw [if_neg (fun hkj => hj'.1 hkj.symm)]
        omega
      · intro j
        have := h.once j
        by_cases hij : i = j
        · subst hij; simp; omega
        · rw [if_neg hij]; omega
      · intro j
        have hce := h.closeEq j
        by_cases hij : i = j
        · subst hij
          rw [← hout] at hce ⊢
          simp at hce ⊢
          omega
        · rw [if_neg hij]
          exact hce
    | noResponse =>
      simp only [p1Handle, if_pos hk, if_pos ht, if_pos hc]
      refine ⟨h.nodup.erase i, ?_, ?_, ?_, ?_⟩ <;> simp only [count_snoc]
      · intro j hj
        have hj' := (h.nodup.mem_erase_iff).mp hj
        have := h.fresh j hj'.2
        rw [if_neg (fun hkj => hj'.1 hkj.symm)]
        omega
      · intro j
        have := h.once j
        by_cases hij : i = j
        · subst hij; simp; omega
        · rw [if_neg hij]; omega
      · intro j
        have := h.cdClose j
        omega
      · intro j
        have hce := h.closeEq j
        by_cases hij : i = j
        · subst hij
          rw [← hout] at hce ⊢
          simp at hce ⊢
          omega
        · rw [if_neg hij]
          simp only [Nat.add_zero]
          exact hce
    | noLinksField =>
      simp only [p1Handle, if_pos hk, if_pos ht, if_pos hc]
      refine ⟨h.nodup.erase i, ?_, ?_, ?_, ?_⟩ <;> simp only [count_snoc]
      · intro j hj
        have hj' := (h.nodup.mem_erase_iff).mp hj
        have := h.fresh j hj'.2
        rw [if_neg (fun hkj => hj'.1 hkj.symm)]
        omega
      · intro j
        have := h.once j
        by_cases hij : i = j
        · subst hij; simp; omega
        · rw [if_neg hij]; omega
      · intro j
        have := h.cdClose j
        omega
      · intro j
        have hce := h.closeEq j
        by_cases hij : i = j
        · subst hij
          rw [← hout] at hce ⊢
          simp at hce ⊢
          omega
        · rw [if_neg hij]
          simp only [Nat.add_zero]
          exact hce
    | gotLinks ls =>
      simp only [p1Handle, if_pos hk, if_pos ht, if_pos hc]
      refine ⟨h.nodup.erase i, ?_, ?_, ?_, ?_⟩ <;> simp only [count_snoc]
      · intro j hj
        have hj' := (h.nodup.mem_erase_iff).mp hj
        have := h.fresh j hj'.2
        rw [if_neg (fun hkj => hj'.1 hkj.symm)]
        omega
      · intro j
        have := h.once j
        by_cases hij : i = j
        · subst hij; simp; omega
        · rw [if_neg hij]; omega
      · intro j
        have := h.cdClose j
        omega
      · intro j
        have hce := h.closeEq j
        by_cases hij : i = j
        · subst hij
          rw [← hout] at hce ⊢
          simp at hce ⊢
          omega
        · rw [if_neg hij]
          simp only [Nat.add_zero]
          exact hce
  case neg =>
    by_cases hu : e.status = "unloaded"
    case neg =>
      simp only [p1Handle, if_pos hk, if_pos ht, if_neg hc, if_neg hu]; exact h
    simp only [p1Handle, if_pos hk, if_pos ht, if_neg hc, if_pos hu]
    refine ⟨h.nodup.erase i, ?_, ?_, ?_, ?_⟩ <;> simp only [count_snoc]
    · intro j hj
      have hj' := (h.nodup.mem_erase_iff).mp hj
      have := h.fresh j hj'.2
      rw [if_neg (fun hkj => hj'.1 hkj.symm)]
      omega
    · intro j
      have := h.once j
      by_cases hij : i = j
      · subst hij; simp; omega
      · rw [if_neg hij]; omega
    · intro j
      have := h.cdClose j
      omega
    · intro j
      have hce := h.closeEq j
      by_cases hij : i = j
      · subst hij
        simp
        omega
      · rw [if_neg hij]
        omega

theorem p1Deliver_inv {env : P1Env} (searchs : List Search) (maxNum : Nat)
    (e : TabEvent) {σ : P1State} (h : P1Inv env σ) :
    P1Inv env (p1Deliver maxNum (p1Sessions searchs env) σ e) := by
  unfold p1Deliver
  apply foldl_preserve (P1Inv env)
  · intro a i ha
    cases hsk : (p1Sessions searchs env)[i]? with
    | none => exact ha
    | some o =>
      cases o with
      | none => exact ha
      | some s => exact p1Handle_inv maxNum i s e (p1Sessions_outcome hsk) ha
  · exact h

theorem runDetailPhase_inv (searchs : List Search) (maxNum : Nat) (env : P1Env)
    (events : List TabEvent) : P1Inv env (runDetailPhase searchs maxNum env events) := by
  unfold runDetailPhase
  apply foldl_preserve (P1Inv env)
  · intro a b ha
    exact p1Deliver_inv searchs maxNum b ha
  · exact p1Init_inv searchs env

theorem p2SetupGo_isOk (env : P2Env) :
    ∀ (pairs : List (Nat × Nat × DetailLink)) (k : Nat),
      (p2SetupGo env pairs k).isOk = createsOkFrom env k pairs.length := by
  intro pairs
  induction pairs with
  | nil => intro k; rfl
  | cons p rest ih =>
    intro k
    simp only [p2SetupGo, List.length_cons, createsOkFrom]
    cases hc : env.tabCreate k with
    | error e => rfl
    | ok tid =>
      simp only [Except.isOk, Bool.true_and]
      cases hr : p2SetupGo env rest (k + 1) with
      | error e =>
        have := ih (k + 1)
        rw [hr] at this
        exact this
      | ok tail =>
        have := ih (k + 1)
        rw [hr] at this
        exact this

theorem p2SetupGo_error (env : P2Env) :
    ∀ (pairs : List (Nat × Nat × DetailLink)) (k : Nat) (e : String),
      p2SetupGo env pairs k = .error e → ∃ j, env.tabCreate j = .error e := by
  intro pairs
  induction pairs with
  | nil => intro k e h; cases h
  | cons p rest ih =>
    intro k e h
    simp only [p2SetupGo] at h
    cases hc : env.tabCreate k with
    | error e' =>
      rw [hc] at h
      cases h
      exact ⟨k, hc⟩
    | ok tid =>
      rw [hc] at h
      cases hr : p2SetupGo env rest (k + 1) with
      | error e' =>
        rw [hr] at h
        cases h
        exact ih (k + 1) e hr
      | ok tail => rw [hr] at h; cases h

theorem doPageContent_error {groups : List LinkGroup} {env : P2Env}
    {events : List TabEvent} {e : String}
    (h : doPageContent groups env events = .error e) :
    ∃ j, env.tabCreate j = .error e := by
  unfold doPageContent runContentPhase at h
  cases hs : p2SetupGo env (p2Pairs groups) 0 with
  | error e' =>
    rw [hs] at h
    cases h
    exact p2SetupGo_error env _ 0 e hs
  | ok sessions => rw [hs] at h; cases h

theorem doPageContent_isOk (groups : List LinkGroup) (env : P2Env)
    (events : List TabEvent) :
    (doPageContent groups env events).isOk =
      createsOkFrom env 0 (p2Pairs groups).length := by
  rw [← p2SetupGo_isOk env (p2Pairs groups) 0]
  unfold doPageContent runContentPhase
  cases hs : p2SetupGo env (p2Pairs groups) 0 <;> rfl

/-- Every link group appended by the discovery phase holds at most
`detailsMaxNum` links. -/
theorem p1_groups_bounded (searchs : List Search) (maxNum : Nat) (env : P1Env)
    (events : List TabEvent) :
    (runDetailPhase searchs maxNum env events).groups.all
      (fun g => decide (g.links.length ≤ maxNum)) = true := by
  unfold runDetailPhase
  apply foldl_preserve
    (fun σ : P1State => σ.groups.all (fun g => decide (g.links.length ≤ maxNum)) = true)
  · intro σ e hσ
    unfold p1Deliver
    apply foldl_preserve
      (fun σ : P1State => σ.groups.all (fun g => decide (g.links.length ≤ maxNum)) = true)
    · intro a i ha
      cases hsk : (p1Sessions searchs env)[i]? with
      | none => exact ha
      | some o =>
        cases o with
        | none => exact ha
        | some s =>
          by_cases hk : i ∈ a.subs
          case neg => simp only [p1Handle, if_neg hk]; exact ha
          by_cases ht : e.tabId = s.tabId
          case neg => simp only [p1Handle, if_pos hk, if_neg ht]; exact ha
          by_cases hc : e.status = "complete"
          case pos =>
            obtain ⟨tid, surl, fn, out⟩ := s
            cases out <;>
              simp only [p1Handle, if_pos hk, if_pos ht, if_pos hc,
                List.all_append, List.all_cons, List.all_nil, ha,
                Bool.true_and, Bool.and_true] <;>
              simp [List.length_take]
          case neg =>
            by_cases hu : e.status = "unloaded"
            case neg =>
              simp only [p1Handle, if_pos hk, if_pos ht, if_neg hc, if_neg hu]
              exact ha
            simp only [p1Handle, if_pos hk, if_pos ht, if_neg hc, if_pos hu]
            exact ha
    · exact hσ
  · simp [p1Init]
/-! ## Claim theorems -/

/-- C4: adapter resolution is a pure function over the fixed, ordered
host table: `https://www.google.com/x` and `https://google.com` both
match the `google.com` entry and build identical search URLs for
every keyword, while `https://example.org` matches no entry, falls to
the default adapter, and its built URL contains the URL-encoded text
`site%3Aexample.org` for every keyword. -/
theorem adapter_resolution_examples :
    (∀ k : String,
        buildDeepSearchUrl ("https://www.google.com/x") k =
          buildDeepSearchUrl ("https://google.com") k) ∧
    resolveInject ("https://www.google.com/x") = ("google.com", googleInject) ∧
    resolveInject ("https://google.com") = ("google.com", googleInject) ∧
    resolveInject ("https://example.org") = ("default", defaultInject) ∧
    (∀ k : String,
        strContainsP (buildDeepSearchUrl ("https://example.org") k).2
          ("site%3Aexample.org")) := by
  refine ⟨fun k => rfl, rfl, rfl, rfl, fun k => ?_⟩
  have h1 : (buildDeepSearchUrl ("https://example.org") k).2 =
      "https://www.google.com/search?q=" ++
        encodeURIComponent ("site:example.org " ++ k) := rfl
  refine ⟨("https://www.google.com/search?q=").data,
    ("%20").data ++ (encodeURIComponent k).data, ?_⟩
  rw [h1, encodeURIComponent_append,
    show encodeURIComponent ("site:example.org ") = "site%3Aexample.org%20" from rfl]
  simp

/-- C9: the tool response is exactly the first LinkGroup's links with
truthy content, in stored order (`respondSpec` spells the claim; it
coincides with the embedded `respond`); every returned link has
truthy content, the returned sequence is an order-preserving
sub-sequence of the first group's links, and an empty `result` yields
the empty response. -/
theorem respond_first_group_characterization :
    ∀ info : SearchInfo,
      respond info = respondSpec info ∧
      (respond info).all (fun l => truthyContent l.content) = true ∧
      (respond info).Sublist
        (match info.result.head? with
         | some g => g.links
         | none => []) := by
  intro info
  refine ⟨?_, ?_, ?_⟩
  · cases hr : info.result with
    | nil => simp [respond, respondSpec, hr]
    | cons g rest => simp [respond, respondSpec, hr]
  · rw [List.all_eq_true]
    intro l hl
    exact (List.mem_filter.mp hl).2
  · exact List.filter_sublist _

/-- C10: a falsy `maxResults` (absent or `0`) becomes the default 5,
so a zero per-search limit is impossible, and a falsy `url` (absent
or empty) becomes `https://google.com`. -/
theorem execute_falsy_defaults :
    effectiveMaxResults none = 5 ∧
    effectiveMaxResults (some 0) = 5 ∧
    (∀ m : Option Nat, 0 < effectiveMaxResults m) ∧
    effectiveUrl none = "https://google.com" ∧
    effectiveUrl (some "") = "https://google.com" ∧
    (∀ s : String, s ≠ "" → effectiveUrl (some s) = s) := by
  refine ⟨rfl, rfl, ?_, rfl, rfl, ?_⟩
  · intro m
    cases m with
    | none => decide
    | some n =>
      by_cases h : n = 0
      · subst h; decide
      · simp only [effectiveMaxResults, if_neg h]
        omega
  · intro s hs
    simp [effectiveUrl, hs]

/-- Witness for C10 at the concrete non-empty url `x`. -/
theorem execute_falsy_defaults_witness :
    ("x" : String) ≠ "" ∧ effectiveUrl (some "x") = "x" :=
  ⟨by decide, execute_falsy_defaults.2.2.2.2.2 "x" (by decide)⟩

/-- C1 counterexample: in link discovery, the session whose complete
branch runs but whose injection/messaging rejects has entered a
terminal branch (and its subscription is gone), yet its tab was never
closed and the barrier never decremented — so close and countdown do
not happen exactly once per terminated session. -/
theorem session_terminal_exactly_once_counterexample :
    cexState.termC.count 0 = 1 ∧ cexState.subs = [] ∧
    cexState.closeLog.count 0 = 0 ∧ cexState.cdLog.count 0 = 0 := by
  refine ⟨?_, ?_, ?_, ?_⟩ <;> decide

/-- C1 (amended): in both phases a session enters a terminal branch
at most once and is then unsubscribed, countdowns always equal tab
closures, and they happen exactly once per terminal entry — except
that a discovery complete branch whose handler errored contributes
neither a closure nor a countdown. -/
theorem session_terminal_at_most_once :
    (∀ (searchs : List Search) (maxNum : Nat) (env1 : P1Env)
        (ev1 : List TabEvent) (k : Nat),
        ((runDetailPhase searchs maxNum env1 ev1).termC.count k +
            (runDetailPhase searchs maxNum env1 ev1).termU.count k ≤ 1) ∧
        ((runDetailPhase searchs maxNum env1 ev1).termC.count k +
            (runDetailPhase searchs maxNum env1 ev1).termU.count k = 0 ∨
          k ∉ (runDetailPhase searchs maxNum env1 ev1).subs) ∧
        (runDetailPhase searchs maxNum env1 ev1).cdLog.count k =
          (runDetailPhase searchs maxNum env1 ev1).closeLog.count k ∧
        (runDetailPhase searchs maxNum env1 ev1).closeLog.count k =
          (runDetailPhase searchs maxNum env1 ev1).termU.count k +
            (if env1.outcome k = .errored then 0
             else (runDetailPhase searchs maxNum env1 ev1).termC.count k)) ∧
    (∀ (groups : List LinkGroup) (env2 : P2Env) (ev2 : List TabEvent)
        (σ : P2State) (k : Nat),
        runContentPhase groups env2 ev2 = .ok σ →
        σ.termLog.count k ≤ 1 ∧
        (σ.termLog.count k = 0 ∨ k ∉ σ.subs) ∧
        σ.cdLog.count k = σ.termLog.count k ∧
        σ.closeLog.count k = σ.termLog.count k) := by
  constructor
  · intro searchs maxNum env1 ev1 k
    have h := runDetailPhase_inv searchs maxNum env1 ev1
    refine ⟨h.once k, ?_, h.cdClose k, h.closeEq k⟩
    by_cases hk : k ∈ (runDetailPhase searchs maxNum env1 ev1).subs
    · exact Or.inl (h.fresh k hk)
    · exact Or.inr hk
  · intro groups env2 ev2 σ k hok
    have h := runContentPhase_inv groups env2 ev2 hok
    refine ⟨h.once k, ?_, h.cdEq k, h.closeEq k⟩
    by_cases hk : k ∈ σ.subs
    · exact Or.inl (h.fresh k hk)
    · exact Or.inr hk

/-- Witness for C1's extraction half at the concrete one-link run. -/
theorem session_terminal_at_most_once_witness :
    c5State.termLog.count 0 ≤ 1 ∧
    (c5State.termLog.count 0 = 0 ∨ 0 ∉ c5State.subs) ∧
    c5State.cdLog.count 0 = c5State.termLog.count 0 ∧
    c5State.closeLog.count 0 = c5State.termLog.count 0 :=
  session_terminal_at_most_once.2 c5Groups c5Env2 [⟨42, "complete"⟩] c5State 0 rfl

/-- Definitional shape of `execute` on a well-formed object input:
the window creation runs first, then the two phases. -/
theorem execute_object_eq (q : String) (url : Option String) (mr : Option Nat)
    (winCreate : Except String Nat) (env1 : P1Env) (ev1 : List TabEvent)
    (env2 : P2Env) (ev2 : List TabEvent) :
    execute (.object (some q) url mr) winCreate env1 ev1 env2 ev2 =
      match winCreate with
      | .error e => .error (.external e)
      | .ok _ =>
        match doPageContent (doDetailLinkGroups [⟨effectiveUrl url, q⟩]
            (effectiveMaxResults mr) env1 ev1) env2 ev2 with
        | .ok info => .ok (respond info)
        | .error e => .error (.external e) := by
  cases winCreate <;> rfl

/-- C2 counterexample: a structurally valid request (`query` present)
still rejects the whole task when opening a content-extraction tab
fails (`doPageContent`'s `chrome.tabs.create` is not guarded), and
likewise when the initial `chrome.windows.create` fails. -/
theorem task_never_fails_counterexample :
    validInput (.object (some "ai") none none) = true ∧
    execute (.object (some "ai") none none) (.ok 1) c2Env1 [⟨7, "complete"⟩]
      c2Env2 [] = .error (.external "tab create failed") ∧
    execute (.object (some "ai") none none) (.error "window create failed")
      c2Env1 [⟨7, "complete"⟩] c2Env2 [] =
      .error (.external "window create failed") :=
  ⟨rfl, rfl, rfl⟩

/-- C2 (amended): for a valid request the task succeeds exactly when
the initial window creation and all content-extraction tab creations
succeed — so every discovery failure and every handler failure is
absorbed — while an invalid request is the only other error, thrown
for every environment. -/
theorem execute_error_characterization :
    (∀ (q : String) (url : Option String) (mr : Option Nat)
        (winCreate : Except String Nat) (env1 : P1Env) (ev1 : List TabEvent)
        (env2 : P2Env) (ev2 : List TabEvent),
        (execute (.object (some q) url mr) winCreate env1 ev1 env2 ev2).isOk =
          (winCreate.isOk &&
            createsOkFrom env2 0
              (p2Pairs (doDetailLinkGroups [⟨effectiveUrl url, q⟩]
                (effectiveMaxResults mr) env1 ev1)).length)) ∧
    (∀ (input : ExecInput) (winCreate : Except String Nat) (env1 : P1Env)
        (ev1 : List TabEvent) (env2 : P2Env) (ev2 : List TabEvent),
        validInput input = false →
        execute input winCreate env1 ev1 env2 ev2 = .error .invalidParams) := by
  constructor
  · intro q url mr winCreate env1 ev1 env2 ev2
    rw [execute_object_eq]
    cases winCreate with
    | error e => rfl
    | ok w =>
      rw [← doPageContent_isOk (doDetailLinkGroups [⟨effectiveUrl url, q⟩]
          (effectiveMaxResults mr) env1 ev1) env2 ev2]
      cases hd : doPageContent (doDetailLinkGroups [⟨effectiveUrl url, q⟩]
          (effectiveMaxResults mr) env1 ev1) env2 ev2 with
      | ok info => rfl
      | error e => rfl
  · intro input winCreate env1 ev1 env2 ev2 hv
    cases input with
    | notObject => rfl
    | nullInput => rfl
    | object q url mr =>
      cases q with
      | none => rfl
      | some q => simp [validInput] at hv

/-- Witness for C2's invalid-input half at the concrete null input. -/
theorem execute_error_characterization_witness :
    execute .nullInput (.ok 1) c2Env1 [] c2Env2 [] = .error .invalidParams :=
  execute_error_characterization.2 .nullInput (.ok 1) c2Env1 [] c2Env2 [] rfl

/-- C3 counterexample: a valid request surfaces a hard failure other
than the invalid-parameters error (a rejected tab creation in content
extraction), so invalid parameters are not the only hard failure. -/
theorem invalid_params_only_failure_counterexample :
    validInput (.object (some "rust") (some "https://bing.com") (some 3)) = true ∧
    execute (.object (some "rust") (some "https://bing.com") (some 3)) (.ok 2)
        c3Env1 [⟨9, "complete"⟩] c3Env2 [] =
      .error (.external "no such window") ∧
    JsErr.external "no such window" ≠ .invalidParams :=
  ⟨rfl, rfl, by decide⟩

/-- C3 (amended): `execute` throws its invalid-parameters error
exactly on malformed input, and does so identically for every
environment (before any work); the only other hard failures it can
surface are an error from the initial window creation and an error
propagated from a content-extraction tab creation. -/
theorem execute_invalid_params_iff :
    (∀ (input : ExecInput) (winCreate : Except String Nat) (env1 : P1Env)
        (ev1 : List TabEvent) (env2 : P2Env) (ev2 : List TabEvent),
        (execute input winCreate env1 ev1 env2 ev2 = .error .invalidParams ↔
          validInput input = false)) ∧
    (∀ (input : ExecInput) (winCreate : Except String Nat) (env1 : P1Env)
        (ev1 : List TabEvent) (env2 : P2Env) (ev2 : List TabEvent) (e : JsErr),
        execute input winCreate env1 ev1 env2 ev2 = .error e →
        e = .invalidParams ∨
          (∃ s, e = .external s ∧ winCreate = .error s) ∨
          ∃ j s, e = .external s ∧ env2.tabCreate j = .error s) := by
  constructor
  · intro input winCreate env1 ev1 env2 ev2
    cases input with
    | notObject => simp [execute, validInput]
    | nullInput => simp [execute, validInput]
    | object q url mr =>
      cases q with
      | none => simp [execute, validInput]
      | some q =>
        simp only [validInput]
        constructor
        · intro h
          exfalso
          rw [execute_object_eq] at h
          cases winCreate with
          | error s =>
            injection h with h'
            cases h'
          | ok w =>
            cases hd : doPageContent (doDetailLinkGroups [⟨effectiveUrl url, q⟩]
                (effectiveMaxResults mr) env1 ev1) env2 ev2 with
            | ok info => rw [hd] at h; cases h
            | error e =>
              rw [hd] at h
              injection h with h'
              cases h'
        · intro h
          cases h
  · intro input winCreate env1 ev1 env2 ev2 e h
    cases input with
    | notObject =>
      injection h with h'
      exact Or.inl h'.symm
    | nullInput =>
      injection h with h'
      exact Or.inl h'.symm
    | object q url mr =>
      cases q with
      | none =>
        injection h with h'
        exact Or.inl h'.symm
      | some q =>
        rw [execute_object_eq] at h
        cases winCreate with
        | error s =>
          injection h with h'
          exact Or.inr (Or.inl ⟨s, h'.symm, rfl⟩)
        | ok w =>
          cases hd : doPageContent (doDetailLinkGroups [⟨effectiveUrl url, q⟩]
              (effectiveMaxResults mr) env1 ev1) env2 ev2 with
          | ok info => rw [hd] at h; cases h
          | error e' =>
            rw [hd] at h
            injection h with h'
            obtain ⟨j, hj⟩ := doPageContent_error hd
            exact Or.inr (Or.inr ⟨j, e', h'.symm, hj⟩)

/-- Witness for C3's error-source half: at the concrete invalid input
the surfaced error is the invalid-parameters error. -/
theorem execute_invalid_params_iff_witness :
    JsErr.invalidParams = .invalidParams ∨
      (∃ s, JsErr.invalidParams = .external s ∧
        (Except.ok 2 : Except String Nat) = .error s) ∨
      ∃ j s, JsErr.invalidParams = .external s ∧ c3Env2.tabCreate j = .error s :=
  execute_invalid_params_iff.2 .notObject (.ok 2) c3Env1 [] c3Env2 []
    .invalidParams rfl

/-- C5: every `searchInfo` reachable by the extraction machine (hence
the one at return, and — since the event list is universally
quantified — the one after every prefix of session mutations) has
`succeed + failed ≤ total` and `failedLinks.length = failed`, and
each session bumps the `succeed`/`failed` counters at most once in
total. -/
theorem searchInfo_counters_invariant :
    ∀ (groups : List LinkGroup) (env : P2Env) (events : List TabEvent)
      (σ : P2State),
      runContentPhase groups env events = .ok σ →
      σ.info.succeed + σ.info.failed ≤ σ.info.total ∧
      σ.info.failedLinks.length = σ.info.failed ∧
      (∀ k, σ.succLog.count k + σ.failLog.count k ≤ 1) := by
  intro groups env events σ hok
  have h := runContentPhase_inv groups env events hok
  refine ⟨?_, ?_, ?_⟩
  · rw [h.succeedEq, h.failedEq, h.totalEq]
    have h1 := h.lenSum
    have h2 := h.succFailLen
    omega
  · rw [h.failedLinksEq, h.failedEq]
  · intro k
    have h1 := h.splitCnt k
    have h2 := h.once k
    omega

/-- Witness for C5 at the concrete one-link successful run. -/
theorem searchInfo_counters_invariant_witness :
    (c5State.info.succeed + c5State.info.failed ≤ c5State.info.total ∧
     c5State.info.failedLinks.length = c5State.info.failed) ∧
    c5State.succLog.count 0 + c5State.failLog.count 0 ≤ 1 :=
  ⟨⟨(searchInfo_counters_invariant c5Groups c5Env2 [⟨42, "complete"⟩] c5State rfl).1,
    (searchInfo_counters_invariant c5Groups c5Env2 [⟨42, "complete"⟩] c5State rfl).2.1⟩,
   (searchInfo_counters_invariant c5Groups c5Env2 [⟨42, "complete"⟩] c5State rfl).2.2 0⟩

/-- C6: when a discovery tab completes and the links request yields a
missing response or a response without a `links` field, the handler
substitutes the empty sequence, still appends a LinkGroup, still
counts the barrier down and closes the tab; and no failure inside the
phase — tab-open rejections, handler errors, malformed responses —
ever makes the task error: the only error source of the two crawl
phases is a content-extraction tab creation. -/
theorem discovery_malformed_response_isolated :
    (∀ (maxNum i : Nat) (s : P1Session) (e : TabEvent) (σ : P1State),
        i ∈ σ.subs → e.tabId = s.tabId → e.status = "complete" →
        (s.outcome = .noResponse ∨ s.outcome = .noLinksField) →
        p1Handle maxNum i s e σ =
          { σ with
            subs := σ.subs.erase i
            termC := σ.termC ++ [i]
            groups := σ.groups ++ [⟨s.searchUrl, [], s.filename⟩]
            cdLog := σ.cdLog ++ [i]
            closeLog := σ.closeLog ++ [i] }) ∧
    (∀ (searchs : List Search) (maxNum : Nat) (env1 : P1Env)
        (ev1 : List TabEvent) (env2 : P2Env) (ev2 : List TabEvent) (e : String),
        doPageContent (doDetailLinkGroups searchs maxNum env1 ev1) env2 ev2 =
          .error e →
        ∃ j, env2.tabCreate j = .error e) := by
  constructor
  · intro maxNum i s e σ hk ht hc hout
    cases hout with
    | inl h1 =>
      simp only [p1Handle, if_pos hk, if_pos ht, if_pos hc, h1, List.take_nil]
    | inr h1 =>
      simp only [p1Handle, if_pos hk, if_pos ht, if_pos hc, h1, List.take_nil]
  · intro searchs maxNum env1 ev1 env2 ev2 e h
    exact doPageContent_error h

/-- Witness for C6's handler half at a concrete session state. -/
theorem discovery_malformed_response_isolated_witness :
    p1Handle 5 0 c6Session ⟨3, "complete"⟩ c6State =
      { c6State with
        subs := c6State.subs.erase 0
        termC := c6State.termC ++ [0]
        groups := c6State.groups ++ [⟨c6Session.searchUrl, [], c6Session.filename⟩]
        cdLog := c6State.cdLog ++ [0]
        closeLog := c6State.closeLog ++ [0] } :=
  discovery_malformed_response_isolated.1 5 0 c6Session ⟨3, "complete"⟩ c6State
    (by decide) rfl rfl (Or.inl rfl)

/-- C7: on a completed extraction tab, a successful response writes
the link in place and bumps `succeed`, while any failure (handler
error or missing response) bumps `failed` and appends the link to
`failedLinks`; both branches decrement `running`, count the barrier
down, close the tab and unsubscribe; concretely, five extraction tabs
with exactly one missing response end with `succeed = 4`,
`failed = 1`, `failedLinks` holding exactly that link, and the phase
returning normally. -/
theorem extraction_branch_behavior :
    (∀ (k : Nat) (s : P2Session) (e : TabEvent) (σ : P2State)
        (t c : Option String),
        k ∈ σ.subs → e.tabId = s.tabId → e.status = "complete" →
        s.outcome = .gotContent t c →
        p2Handle k s e σ =
          { σ with
            info := { σ.info with
              result := updateLink σ.info.result s.gi s.lj t c
              succeed := σ.info.succeed + 1
              running := σ.info.running - 1 }
            subs := (σ.subs.erase k).erase k
            succLog := σ.succLog ++ [k]
            termLog := σ.termLog ++ [k]
            cdLog := σ.cdLog ++ [k]
            closeLog := σ.closeLog ++ [k] }) ∧
    (∀ (k : Nat) (s : P2Session) (e : TabEvent) (σ : P2State),
        k ∈ σ.subs → e.tabId = s.tabId → e.status = "complete" →
        (s.outcome = .errored ∨ s.outcome = .noResult) →
        p2Handle k s e σ =
          { σ with
            info := { σ.info with
              failed := σ.info.failed + 1
              failedLinks := σ.info.failedLinks ++ [s.link]
              running := σ.info.running - 1 }
            subs := (σ.subs.erase k).erase k
            failLog := σ.failLog ++ [k]
            termLog := σ.termLog ++ [k]
            cdLog := σ.cdLog ++ [k]
            closeLog := σ.closeLog ++ [k] }) ∧
    doPageContent scenGroups scenEnv2 scenEvents = .ok scenInfo ∧
    scenInfo.succeed = 4 ∧ scenInfo.failed = 1 ∧
    scenInfo.failedLinks = [scenLink 2] := by
  refine ⟨?_, ?_, rfl, ?_, ?_, ?_⟩
  · intro k s e σ t c hk ht hc hout
    simp only [p2Handle, if_pos hk, if_pos ht, if_pos hc, hout]
  · intro k s e σ hk ht hc hout
    cases hout with
    | inl h1 => simp only [p2Handle, if_pos hk, if_pos ht, if_pos hc, h1]
    | inr h1 => simp only [p2Handle, if_pos hk, if_pos ht, if_pos hc, h1]
  · decide
  · decide
  · decide

/-- Witness for C7's success branch at a concrete session state. -/
theorem extraction_branch_behavior_witness :
    p2Handle 0 c7Session ⟨8, "complete"⟩ c7State =
      { c7State with
        info := { c7State.info with
          result := updateLink c7State.info.result c7Session.gi c7Session.lj
            (some "T") (some "B")
          succeed := c7State.info.succeed + 1
          running := c7State.info.running - 1 }
        subs := (c7State.subs.erase 0).erase 0
        succLog := c7State.succLog ++ [0]
        termLog := c7State.termLog ++ [0]
        cdLog := c7State.cdLog ++ [0]
        closeLog := c7State.closeLog ++ [0] } :=
  extraction_branch_behavior.1 0 c7Session ⟨8, "complete"⟩ c7State
    (some "T") (some "B") (by decide) rfl rfl rfl

/-- C8: every LinkGroup the discovery phase ever appends holds at
most `detailsMaxNum` links (the handler truncates with `slice(0,
detailsMaxNum)` before appending, hence before content extraction
consumes the groups); with `maxResults = 2` (passed through as
`detailsMaxNum = 2`) a ten-link discovery response is cut to exactly
its first two links. -/
theorem discovery_truncation :
    (∀ (searchs : List Search) (maxNum : Nat) (env1 : P1Env)
        (ev1 : List TabEvent),
        (doDetailLinkGroups searchs maxNum env1 ev1).all
          (fun g => decide (g.links.length ≤ maxNum)) = true) ∧
    effectiveMaxResults (some 2) = 2 ∧
    (doDetailLinkGroups c8Searchs 2 c8Env1 [⟨7, "complete"⟩]).map
      (fun g => g.links) = [c8TenLinks.take 2] ∧
    (c8TenLinks.take 2).length = 2 := by
  refine ⟨?_, rfl, ?_, ?_⟩
  · intro searchs maxNum env1 ev1
    exact p1_groups_bounded searchs maxNum env1 ev1
  · decide
  · decide

end WebSearchTS
